import Mathlib

/-!
Verification development for the Cesium transform-gizmo interaction engine
(`Gizmo` class, single TypeScript source file).  The engine's numeric code is
shallowly embedded: JavaScript numbers are modelled as `ℚ` where the source
performs only field arithmetic and comparisons (every IEEE double is a
rational, so `ℚ` covers all reachable values), and as `ℝ` where the source
calls transcendental library functions (`Math.acos`, `Math.atan2`,
`Math.sqrt`, trigonometry).  External collaborators (the Cesium camera,
`IntersectionTests.rayPlane`, `rayAxisAlignedBoundingBox`,
`eastNorthUpToFixedFrame`) are modelled at their interface boundary: their
results enter the embedded functions as parameters (`Option` for fallible
calls), exactly where the source reads their return values.
-/

namespace GizmoSpec

/-- Transform mode enumeration (`TransformMode = 'translate' | 'rotate' | 'scale'`). -/
inductive TransformMode where
  | translate
  | rotate
  | scale
deriving DecidableEq, Repr

/-- Axis tag of a gizmo id (`axis: 'X' | 'Y' | 'Z' | 'XY' | 'YZ' | 'ZX' | 'CENTER'`). -/
inductive Axis where
  | X
  | Y
  | Z
  | XY
  | YZ
  | ZX
  | CENTER
deriving DecidableEq, Repr

/-- Kind tag of a gizmo id (`type: TransformMode | 'center'`). -/
inductive IdKind where
  | translate
  | rotate
  | scale
  | center
deriving DecidableEq, Repr

/-- Handle name (`name` field of `GizmoId`).  The source stores these as the
string literals `TRANS_X`, `PLANE_XY`, `ROT_X`, `SCALE_X`, `CENTER`, ...;
only these finitely many names ever occur, so they are modelled as an
inductive type. -/
inductive HandleName where
  | TRANS_X
  | TRANS_Y
  | TRANS_Z
  | PLANE_XY
  | PLANE_YZ
  | PLANE_ZX
  | ROT_X
  | ROT_Y
  | ROT_Z
  | SCALE_X
  | SCALE_Y
  | SCALE_Z
  | CENTER
deriving DecidableEq, Repr

/-- Gizmo id structure (`interface GizmoId { axis; type; name }`). -/
structure GizmoId where
  axis : Axis
  kind : IdKind
  name : HandleName
deriving DecidableEq, Repr

/-- Models `name.includes('PLANE')` on the handle-name strings. -/
def HandleName.isPlaneName : HandleName → Bool
  | .PLANE_XY => true
  | .PLANE_YZ => true
  | .PLANE_ZX => true
  | _ => false

/-- Models `name.split('_')[1]` on the handle-name strings: the part after the
underscore, read back as an axis tag (`none` when there is no underscore,
i.e. for `CENTER`, where `split('_')[1]` is `undefined`). -/
def HandleName.splitSecond : HandleName → Option Axis
  | .TRANS_X => some .X
  | .TRANS_Y => some .Y
  | .TRANS_Z => some .Z
  | .PLANE_XY => some .XY
  | .PLANE_YZ => some .YZ
  | .PLANE_ZX => some .ZX
  | .ROT_X => some .X
  | .ROT_Y => some .Y
  | .ROT_Z => some .Z
  | .SCALE_X => some .X
  | .SCALE_Y => some .Y
  | .SCALE_Z => some .Z
  | .CENTER => none

/-! ## getTransformState: rounding and cleaning pipeline

`getTransformState` extracts position / rotation / scale from the bound
object's model matrix and then formats them.  The formatting functions below
are the exact per-component pipelines of the source; the upstream matrix
decomposition (`Matrix4.getTranslation`, `getScale`, the re-orthonormalized
rotation, `HeadingPitchRoll.fromQuaternion` and the radian-to-degree
conversion `rad * 180 / π`) produces arbitrary double values, so the
theorems below quantify over the pipeline inputs. -/

/-- Models `parseFloat(x.toFixed(f))`: round to `f` decimal digits.
ECMAScript `toFixed` picks the closest decimal and breaks ties towards the
larger value, i.e. round-half-up on `x * 10^f`. -/
def roundTo (f : ℕ) (x : ℚ) : ℚ :=
  (⌊x * 10 ^ f + 1 / 2⌋ : ℚ) / 10 ^ f

/-- Models the `cleanScale` closure of `getTransformState`:
`if (Math.abs(val - 1.0) < 0.00001) return 1.0; return parseFloat(val.toFixed(3))`. -/
def cleanScale (val : ℚ) : ℚ :=
  if |val - 1| < 1 / 100000 then 1 else roundTo 3 val

/-- Models the position formatting of `getTransformState`:
`parseFloat(position.x.toFixed(2))` (and likewise for y, z). -/
def roundPosition (v : ℚ) : ℚ := roundTo 2 v

/-- Modelled from the spec (for comparison only): the spec claims position
components are rounded to 3 decimal digits. -/
def roundPositionSpec (v : ℚ) : ℚ := roundTo 3 v

/-- Models the JavaScript remainder `a % 360`: truncated division remainder,
carrying the sign of `a`. -/
def jsMod360 (a : ℚ) : ℚ :=
  if 0 ≤ a then a - 360 * (⌊a / 360⌋ : ℚ) else a - 360 * (⌈a / 360⌉ : ℚ)

/-- Models the `toDegrees` closure of `getTransformState`, starting from the
degree value `degree = Cesium.Math.toDegrees(rad)` (the transcendental
`rad * 180 / π` conversion is upstream; the theorem quantifies over its
result).  Steps, in source order: `degree %= 360`; `if (degree < 0) degree
+= 360`; `if (Math.abs(degree - 360) < 0.01) degree = 0`;
`if (Math.abs(degree) < 0.01) degree = 0`; `parseFloat(degree.toFixed(2))`.
(The source also pre-snaps `|rad| < 1e-10` to `rad = 0` before converting;
that only changes which degree value enters this pipeline.) -/
def toDegreesClean (degree : ℚ) : ℚ :=
  let d1 := jsMod360 degree
  let d2 := if d1 < 0 then d1 + 360 else d1
  let d3 := if |d2 - 360| < 1 / 100 then 0 else d2
  let d4 := if |d3| < 1 / 100 then 0 else d3
  roundTo 2 d4

/-! ## rayCastGizmo: nearest-hit selection

The source loops over `this._colliders`; for each collider it inverts the
owning primitive's placement matrix, transforms the pick ray to local space
and intersects it with the collider (AABB interval, plus the SECTOR entry
point tests).  All of those per-collider steps either produce an entry
distance `interval.start` or skip the collider (`continue` on hidden
primitive, non-invertible matrix, empty interval, failed sector test).  The
selection logic below is parameterized by that per-collider outcome
(`hit : Option ℚ`), and reproduces the fold over `minDistance` /
`closestId` of the source verbatim. -/

/-- One collider as seen by the selection loop of `rayCastGizmo`: its id and
the entry distance of the ray (if all per-collider tests passed). -/
structure PickEntry where
  id : GizmoId
  hit : Option ℚ
deriving DecidableEq, Repr

/-- The adjusted distance used for the comparison:
`let dist = interval.start; if (collider.id.axis === 'CENTER') dist -= 1000.0`. -/
def adjustedDist (e : PickEntry) (t : ℚ) : ℚ :=
  if e.id.axis = Axis.CENTER then t - 1000 else t

/-- One iteration of the selection loop:
`if (dist < minDistance) { minDistance = dist; closestId = collider.id }`. -/
def pickStep (acc : ℚ × Option GizmoId) (e : PickEntry) : ℚ × Option GizmoId :=
  match e.hit with
  | none => acc
  | some t =>
    let d := adjustedDist e t
    if d < acc.1 then (d, some e.id) else acc

/-- `Number.MAX_VALUE`, the initial value of `minDistance`. -/
def numberMaxValue : ℚ := (2 ^ 53 - 1) * 2 ^ 971

/-- The selection fold of `rayCastGizmo`: `minDistance = Number.MAX_VALUE;
closestId = null;` then the loop over all colliders, returning `closestId`.
(The early returns for an empty collider list and a failed `getPickRay`
both yield `null`, which coincides with folding the empty list.) -/
def rayCastGizmo (entries : List PickEntry) : Option GizmoId :=
  (entries.foldl pickStep (numberMaxValue, none)).2

/-! ## Drag state machine

The control state of the `Gizmo` class: exactly the mutable fields that the
cancellation / drag-lifecycle claims are about.  Purely visual resources
(primitive collections, colors) are represented by the bookkeeping that the
claims mention: which mode the collider set was built for, the outline
selection, and invocation counters for `createGizmo`,
`updateOutlineSelection` and the `onUpdate` callback.  Bound objects are
identified by an opaque `ℕ` (reference identity of the Cesium object). -/

structure EngineState where
  mode : TransformMode
  object : Option ℕ
  center : Option ℕ
  isDragging : Bool
  dragAxisName : Option HandleName
  hasDragPlane : Bool
  activeScale : ℚ × ℚ × ℚ
  highlightedId : Option GizmoId
  enableRotate : Bool
  enableTranslate : Bool
  colliderMode : Option TransformMode
  outlineSelected : Option ℕ
  handlerAlive : Bool
  primitivesAdded : Bool
  rebuildCount : ℕ
  outlineUpdateCount : ℕ
  onUpdateCount : ℕ
deriving DecidableEq, Repr

/-- Models `resetState`: stop dragging, clear the drag plane and axis name,
reset `_activeScale` to `(1,1,1)`, clear the highlight, and re-enable the
camera's rotate/translate controls.  (The source guards each `= true`
assignment with `if (!controller.enableX)`; the net effect is
unconditionally `true`.) -/
def resetState (s : EngineState) : EngineState :=
  { s with
    isDragging := false
    dragAxisName := none
    hasDragPlane := false
    activeScale := (1, 1, 1)
    highlightedId := none
    enableRotate := true
    enableTranslate := true }

/-- Models `createGizmo`: clears all primitives/colliders and rebuilds the
handle set for the current mode. -/
def createGizmo (s : EngineState) : EngineState :=
  { s with
    colliderMode := some s.mode
    rebuildCount := s.rebuildCount + 1 }

/-- Models the `mode` setter:
`if (this._mode !== val) { this._mode = val; this.createGizmo() }`. -/
def setMode (val : TransformMode) (s : EngineState) : EngineState :=
  if s.mode ≠ val then createGizmo { s with mode := val } else s

/-- Models `updateOutlineSelection`: sets the edge-detection stage's
selection to the bound object (the bound object is always a
`Model`/`Cesium3DTileset` here, matching the `instanceof` branch). -/
def updateOutlineSelection (s : EngineState) : EngineState :=
  { s with
    outlineSelected := s.object
    outlineUpdateCount := s.outlineUpdateCount + 1 }

/-- Models `parseCenter`: reads the bound object's bounding-sphere center
(the center is identified by the same opaque token as its object). -/
def parseCenter (s : EngineState) : EngineState :=
  { s with center := s.object }

/-- Models `detach`: `resetState`, clear the object and center, remove all
primitives and colliders, clear the outline selection. -/
def detach (s : EngineState) : EngineState :=
  let s1 := resetState s
  { s1 with
    object := none
    center := none
    colliderMode := none
    outlineSelected := none }

/-- Models `bindObject`: `null` detaches; an unchanged object returns
immediately; otherwise reset state, bind, re-parse the center, rebuild the
gizmo, update the outline selection, and fire `onUpdate`. -/
def bindObject (object : Option ℕ) (s : EngineState) : EngineState :=
  match object with
  | none => detach s
  | some obj =>
    if s.object = some obj then s
    else
      let s1 := resetState s
      let s2 := { s1 with object := some obj }
      let s3 := parseCenter s2
      let s4 := createGizmo s3
      let s5 := updateOutlineSelection s4
      { s5 with onUpdateCount := s5.onUpdateCount + 1 }

/-- Models `destroy`: removes the preUpdate listener and the primitive
collection, removes the outline stage, and destroys the input handler.  It
touches nothing else: in particular it does not reset the drag state or the
camera controls. -/
def destroy (s : EngineState) : EngineState :=
  { s with
    handlerAlive := false
    primitivesAdded := false }

/-- Models `handleUp` (pointer-up): if a drag is active, stop it, re-enable
the camera controls, reset `_activeScale` and clear the outline selection. -/
def handleUp (s : EngineState) : EngineState :=
  if s.isDragging then
    { s with
      isDragging := false
      enableRotate := true
      enableTranslate := true
      activeScale := (1, 1, 1)
      outlineSelected := none }
  else s

/-- Models `startDrag`: the guard
`if (id.axis === 'CENTER' && this._mode !== 'scale') return` rejects the
center handle outside scale mode before any state is touched; otherwise the
camera controls are disabled, the drag begins, the outline selection is
updated and (when a center exists) the drag plane is computed.  The numeric
plane / start-point computation lives in the real-valued tick functions
below; here only the control-state effects are tracked. -/
def startDrag (id : GizmoId) (s : EngineState) : EngineState :=
  if id.axis = Axis.CENTER ∧ s.mode ≠ TransformMode.scale then s
  else
    let s1 :=
      { s with
        enableRotate := false
        enableTranslate := false
        isDragging := true
        dragAxisName := some id.name }
    let s2 := updateOutlineSelection s1
    match s2.center with
    | some _ => { s2 with hasDragPlane := true }
    | none => s2

/-- Models the pick resolution of `handleDown`: the geometric
`rayCastGizmo` result, falling back to the host's `scene.pick` (whose
result carries a gizmo id when a gizmo primitive was picked). -/
def resolvePick (rayPick scenePick : Option GizmoId) : Option GizmoId :=
  match rayPick with
  | some id => some id
  | none => scenePick

/-- Models `handleDown`: resolve a pick (ray cast, then host fallback) and
start a drag when a handle was resolved. -/
def handleDown (rayPick scenePick : Option GizmoId) (s : EngineState) : EngineState :=
  match resolvePick rayPick scenePick with
  | none => s
  | some id => startDrag id s

/-- A concrete engine state in the middle of a drag: object 1 bound, the X
translate handle being dragged, camera controls disabled. -/
def draggingState : EngineState :=
  { mode := TransformMode.translate
    object := some 1
    center := some 1
    isDragging := true
    dragAxisName := some HandleName.TRANS_X
    hasDragPlane := true
    activeScale := (1, 1, 1)
    highlightedId := none
    enableRotate := false
    enableTranslate := false
    colliderMode := some TransformMode.translate
    outlineSelected := some 1
    handlerAlive := true
    primitivesAdded := true
    rebuildCount := 1
    outlineUpdateCount := 1
    onUpdateCount := 1 }

/-! ## Real-valued geometry

The tick functions (`update`, `updateRotate`, `updateScale`,
`updateTranslate`, `handleDrag`, the sector test of `rayCastGizmo`) use
`Math.atan2`, `Math.acos`, `Math.sqrt` and trigonometry, so they are
embedded over `ℝ`. -/

/-- A `Cesium.Cartesian3`. -/
structure V3 where
  x : ℝ
  y : ℝ
  z : ℝ

/-- `Cartesian3.dot`. -/
noncomputable def dot3 (a b : V3) : ℝ := a.x * b.x + a.y * b.y + a.z * b.z

/-- `Cartesian3.cross`. -/
noncomputable def cross3 (a b : V3) : V3 :=
  ⟨a.y * b.z - a.z * b.y, a.z * b.x - a.x * b.z, a.x * b.y - a.y * b.x⟩

/-- `Cartesian3.subtract`. -/
noncomputable def sub3 (a b : V3) : V3 := ⟨a.x - b.x, a.y - b.y, a.z - b.z⟩

/-- `Cartesian3.add`. -/
noncomputable def add3 (a b : V3) : V3 := ⟨a.x + b.x, a.y + b.y, a.z + b.z⟩

/-- `Cartesian3.multiplyByScalar`. -/
noncomputable def smul3 (c : ℝ) (a : V3) : V3 := ⟨c * a.x, c * a.y, c * a.z⟩

/-- `Cartesian3.magnitude`: `sqrt(x*x + y*y + z*z)`. -/
noncomputable def mag3 (a : V3) : ℝ := Real.sqrt (a.x * a.x + a.y * a.y + a.z * a.z)

/-- `Cartesian3.normalize`: divide each component by the magnitude. -/
noncomputable def normalize3 (a : V3) : V3 :=
  ⟨a.x / mag3 a, a.y / mag3 a, a.z / mag3 a⟩

/-- Cesium 3x3 matrices. -/
abbrev Mat3 := Matrix (Fin 3) (Fin 3) ℝ

/-- Cesium 4x4 matrices. -/
abbrev Mat4 := Matrix (Fin 4) (Fin 4) ℝ

/-- `Matrix4.fromTranslation`. -/
noncomputable def fromTranslation (v : V3) : Mat4 :=
  !![1, 0, 0, v.x; 0, 1, 0, v.y; 0, 0, 1, v.z; 0, 0, 0, 1]

/-- `Matrix4.fromScale`. -/
noncomputable def fromScale4 (v : V3) : Mat4 :=
  !![v.x, 0, 0, 0; 0, v.y, 0, 0; 0, 0, v.z, 0; 0, 0, 0, 1]

/-- `Matrix3.fromScale`. -/
noncomputable def fromScale3 (v : V3) : Mat3 :=
  !![v.x, 0, 0; 0, v.y, 0; 0, 0, v.z]

/-- `Matrix4.fromRotationTranslation(r)` with the default zero translation:
embed a 3x3 block into a 4x4 matrix. -/
noncomputable def fromRotation (r : Mat3) : Mat4 :=
  !![r 0 0, r 0 1, r 0 2, 0;
     r 1 0, r 1 1, r 1 2, 0;
     r 2 0, r 2 1, r 2 2, 0;
     0, 0, 0, 1]

/-- `Cesium.Math.clamp(value, min, max)`:
`value < min ? min : value > max ? max : value`. -/
noncomputable def clampRange (value minv maxv : ℝ) : ℝ :=
  if value < minv then minv else if value > maxv then maxv else value

/-- `Math.atan2(y, x)`: the angle of the point `(x, y)` in `(-π, π]`
(`0` at `(0, 0)`, matching JavaScript). -/
noncomputable def atan2 (y x : ℝ) : ℝ :=
  if 0 < x then Real.arctan (y / x)
  else if x < 0 then
    (if 0 ≤ y then Real.arctan (y / x) + Real.pi else Real.arctan (y / x) - Real.pi)
  else
    (if 0 < y then Real.pi / 2 else if y < 0 then -(Real.pi / 2) else 0)

/-- `Quaternion.fromAxisAngle(axis, angle)` (for a unit axis): components
`(axis * sin(angle/2), cos(angle/2))`, returned as `(x, y, z, w)`. -/
noncomputable def quatFromAxisAngle (axis : V3) (angle : ℝ) : ℝ × ℝ × ℝ × ℝ :=
  let halfAngle := angle / 2
  let s := Real.sin halfAngle
  (axis.x * s, axis.y * s, axis.z * s, Real.cos halfAngle)

/-- `Matrix3.fromQuaternion`, Cesium's formula. -/
noncomputable def mat3FromQuaternion (q : ℝ × ℝ × ℝ × ℝ) : Mat3 :=
  let x := q.1
  let y := q.2.1
  let z := q.2.2.1
  let w := q.2.2.2
  !![x * x - y * y - z * z + w * w, 2 * (x * y - z * w), 2 * (x * z + y * w);
     2 * (x * y + z * w), -(x * x) + y * y - z * z + w * w, 2 * (y * z - x * w);
     2 * (x * z - y * w), 2 * (y * z + x * w), -(x * x) - y * y + z * z + w * w]

/-! ## Billboard update: rotation-handle quadrant snapping

Per-frame, `update` expresses the camera direction in the gizmo's local ENU
frame and, for each rotation handle, computes the `atan2` angle of that
direction in the handle's own plane, then snaps it with
`Math.floor(angle / step) * step`, `step = π/2`. -/

/-- The per-plane camera angle of `update` for a rotation handle:
`Z`: `atan2(localCameraDir.y, localCameraDir.x)`,
`X`: `atan2(localCameraDir.z, localCameraDir.y)`,
`Y`: `atan2(localCameraDir.x, localCameraDir.z)` (other axes never carry a
rotation handle; their angle stays at the source's initialization `0`). -/
noncomputable def cameraPlaneAngle (axis : Axis) (localCameraDir : V3) : ℝ :=
  match axis with
  | .Z => atan2 localCameraDir.y localCameraDir.x
  | .X => atan2 localCameraDir.z localCameraDir.y
  | .Y => atan2 localCameraDir.x localCameraDir.z
  | _ => 0

/-- The quadrant snap of `update`:
`const step = Math.PI / 2; const snapAngle = Math.floor(angle / step) * step`. -/
noncomputable def snapQuadrant (angle : ℝ) : ℝ :=
  (⌊angle / (Real.pi / 2)⌋ : ℝ) * (Real.pi / 2)

/-- The snapped orientation applied to a rotation handle each frame. -/
noncomputable def quadrantSnapAngle (axis : Axis) (localCameraDir : V3) : ℝ :=
  snapQuadrant (cameraPlaneAngle axis localCameraDir)

/-! ## Sector collider test of rayCastGizmo

For a `SECTOR` collider, after the AABB interval test succeeded, the source
takes the entry point `hitPoint = Ray.getPoint(localRay, interval.start)`
and applies two `continue` guards: a radial bound and the first-quadrant
wedge test.  `sectorRayHit` is parameterized by the outcome of the external
`rayAxisAlignedBoundingBox` call: `entry = some hitPoint` when the interval
was non-empty. -/

/-- The in-plane coordinate selection of the sector test:
`ringNormalAxis === 2` reads `(x, y)`; `0` reads `(y, z)`; `1` reads
`(z, x)`; anything else leaves the initialization `(0, 0)`. -/
noncomputable def inPlane (ringNormalAxis : ℕ) (p : V3) : ℝ × ℝ :=
  match ringNormalAxis with
  | 2 => (p.x, p.y)
  | 0 => (p.y, p.z)
  | 1 => (p.z, p.x)
  | _ => (0, 0)

/-- The two sector guards at the interval entry point, in source order:
`buffer = tube * 4.0; dist = magnitude(hitPoint); if (dist > r + buffer)
continue;` then `if (u < -0.05 || v < -0.05) continue`.  The point is
accepted exactly when neither guard fires. -/
noncomputable def sectorHitAt (radius tube : ℝ) (ringNormalAxis : ℕ) (hitPoint : V3) : Prop :=
  let buffer := tube * 4
  let dist := mag3 hitPoint
  let uv := inPlane ringNormalAxis hitPoint
  ¬ (dist > radius + buffer) ∧ ¬ (uv.1 < -(5 / 100) ∨ uv.2 < -(5 / 100))

/-- A ray hits a sector collider iff its bounding-box interval is non-empty
(`entry = some hitPoint`) and the entry point passes both sector guards. -/
noncomputable def sectorRayHit (radius tube : ℝ) (ringNormalAxis : ℕ)
    (entry : Option V3) : Prop :=
  match entry with
  | none => False
  | some hitPoint => sectorHitAt radius tube ringNormalAxis hitPoint

/-! ## Drag tick computation

`handleDrag` intersects the current pick ray with the stored drag plane and
dispatches to `updateTranslate` / `updateRotate` / `updateScale`.  The
external inputs that the source reads mid-tick — the ENU frame columns of
`eastNorthUpToFixedFrame` at the relevant center, the camera up vector and
`getPixelSize` — are carried in a `DragEnv`. -/

/-- The environment of one drag tick: the drag-session snapshot fields of
the class plus the externally supplied frame and camera data. -/
structure DragEnv where
  dragStartPoint : V3
  dragStartCenter : V3
  dragVectorStart : V3
  dragAxisName : HandleName
  enuCol0 : V3
  enuCol1 : V3
  enuCol2 : V3
  enuR : Mat3
  cameraUp : V3
  pixelSize : ℝ
  axisLength : ℝ
  initialModelMatrix : Mat4

/-- The axis-vector selection shared by the tick functions: start from
`new Cartesian3()` (zero), overwrite with the ENU column matching the
letter after the underscore of the drag axis name, then normalize. -/
noncomputable def selectAxisVector (env : DragEnv) : V3 :=
  let raw : V3 :=
    match env.dragAxisName.splitSecond with
    | some .X => env.enuCol0
    | some .Y => env.enuCol1
    | some .Z => env.enuCol2
    | _ => ⟨0, 0, 0⟩
  normalize3 raw

/-- Models `applyTransform`: compose the delta about the current center,
`toCenter * (transform * toOrigin)`, and right-multiply onto the matrix
captured at drag start: `m * initialModelMatrix`. -/
noncomputable def applyTransform (center : V3) (transform : Mat4) (initialM : Mat4) : Mat4 :=
  let toOrigin := fromTranslation ⟨-center.x, -center.y, -center.z⟩
  let toCenter := fromTranslation center
  toCenter * (transform * toOrigin) * initialM

/-- Models `updateTranslate`: move vector on the drag plane; planar handles
take the full vector, axis handles project it onto the axis direction; the
pure translation is right-multiplied onto the initial matrix.  Returns the
new object model matrix. -/
noncomputable def updateTranslate (env : DragEnv) (newPoint : V3) : Mat4 :=
  let moveVector := sub3 newPoint env.dragStartPoint
  let offset :=
    if env.dragAxisName.isPlaneName then moveVector
    else
      let axisVector := selectAxisVector env
      smul3 (dot3 moveVector axisVector) axisVector
  let newCenter := add3 env.dragStartCenter offset
  let translation := sub3 newCenter env.dragStartCenter
  fromTranslation translation * env.initialModelMatrix

/-- Models the angle computation of `updateRotate`:
`dot = dot(dragVectorStart, currentVector)`;
`angle = acos(clamp(dot, -1, 1))`; `if (angle === 0) return` (`none`);
otherwise the sign flips iff `dot(cross(dragVectorStart, currentVector),
axisVector) < 0`. -/
noncomputable def updateRotateAngle (dragVectorStart currentVector axisVector : V3) :
    Option ℝ :=
  let d := dot3 dragVectorStart currentVector
  let angle := Real.arccos (clampRange d (-1) 1)
  if angle = 0 then none
  else
    let cr := cross3 dragVectorStart currentVector
    let sign := dot3 cr axisVector
    some (if sign < 0 then -angle else angle)

/-- Models `updateRotate` end to end: normalize the center-to-point
direction, compute the signed angle, and — unless the angle was zero, in
which case the object matrix is left untouched — apply the axis-angle
rotation about the center to the initial matrix.  `objM` is the object's
current model matrix (the result of the previous tick). -/
noncomputable def updateRotateTick (env : DragEnv) (center : V3) (newPoint : V3)
    (objM : Mat4) : Mat4 :=
  let currentVector := normalize3 (sub3 newPoint center)
  let axisVector := selectAxisVector env
  match updateRotateAngle env.dragVectorStart currentVector axisVector with
  | none => objM
  | some angle =>
    let rotationMatrix := fromRotation (mat3FromQuaternion (quatFromAxisAngle axisVector angle))
    applyTransform center rotationMatrix env.initialModelMatrix

/-- Result of one `updateScale` tick: the new object matrix, the new
`_activeScale`, and the scale factor that was computed. -/
structure ScaleResult where
  matrix : Mat4
  activeScale : V3
  factor : ℝ

/-- Models `updateScale`: `sensitivity = 1 / (axisLength * pixelSize)`.
For the CENTER handle the drag distance is the move vector's component
along the camera up vector and
`scaleFactor = max(0.01, 1 + dragDist * sensitivity * 2)`, applied
uniformly; for an axis handle the drag distance is the component along the
axis vector, `scaleFactor = max(0.01, 1 + dragDist * sensitivity)`, and the
scale is oriented into the local frame via `R * diag(scaleVec) * Rᵀ`. -/
noncomputable def updateScale (env : DragEnv) (center : V3) (newPoint : V3) : ScaleResult :=
  let moveVector := sub3 newPoint env.dragStartPoint
  let currentLen := env.axisLength * env.pixelSize
  let sensitivity := 1 / currentLen
  if env.dragAxisName = HandleName.CENTER then
    let dragDist := dot3 moveVector env.cameraUp
    let scaleFactor := max (1 / 100) (1 + dragDist * sensitivity * 2)
    let scaleMatrix := fromScale4 ⟨scaleFactor, scaleFactor, scaleFactor⟩
    { matrix := applyTransform center scaleMatrix env.initialModelMatrix
      activeScale := ⟨scaleFactor, scaleFactor, scaleFactor⟩
      factor := scaleFactor }
  else
    let axisVector := selectAxisVector env
    let dragDist := dot3 moveVector axisVector
    let scaleFactor := max (1 / 100) (1 + dragDist * sensitivity)
    let letter := env.dragAxisName.splitSecond
    let scaleVec : V3 :=
      ⟨if letter = some Axis.X then scaleFactor else 1,
       if letter = some Axis.Y then scaleFactor else 1,
       if letter = some Axis.Z then scaleFactor else 1⟩
    let orientedScale := env.enuR * (fromScale3 scaleVec * env.enuR.transpose)
    { matrix := applyTransform center (fromRotation orientedScale) env.initialModelMatrix
      activeScale := scaleVec
      factor := scaleFactor }

/-- Models `handleDrag`: the guard chain
`if (!this._dragPlane || !this.center) return`, `getPickRay` failure,
`IntersectionTests.rayPlane` failure — each skips the tick, leaving the
object matrix unchanged and not firing `onUpdate` — then the mode dispatch
followed by the `onUpdate` callback.  `dragPlane` / `ray` record whether
those values exist; `newPoint` is the result of the external `rayPlane`
call.  Returns the object's model matrix after the tick and whether
`onUpdate` fired. -/
noncomputable def handleDrag (dragPlane : Option Unit) (center : Option V3)
    (ray : Option Unit) (newPoint : Option V3) (mode : TransformMode)
    (env : DragEnv) (objM : Mat4) : Mat4 × Bool :=
  match dragPlane, center with
  | none, _ => (objM, false)
  | some _, none => (objM, false)
  | some _, some c =>
    match ray with
    | none => (objM, false)
    | some _ =>
      match newPoint with
      | none => (objM, false)
      | some p =>
        let m :=
          match mode with
          | .translate => updateTranslate env p
          | .rotate => updateRotateTick env c p objM
          | .scale => (updateScale env c p).matrix
        (m, true)

/-- The gizmo id of the X translate handle. -/
def transXId : GizmoId := ⟨Axis.X, IdKind.translate, HandleName.TRANS_X⟩

/-- The gizmo id of the center handle in translate mode. -/
def centerId : GizmoId := ⟨Axis.CENTER, IdKind.center, HandleName.CENTER⟩

/-- A concrete drag environment for a CENTER uniform-scale drag. -/
noncomputable def centerDragEnv : DragEnv :=
  { dragStartPoint := ⟨0, 0, 0⟩
    dragStartCenter := ⟨0, 0, 0⟩
    dragVectorStart := ⟨1, 0, 0⟩
    dragAxisName := HandleName.CENTER
    enuCol0 := ⟨1, 0, 0⟩
    enuCol1 := ⟨0, 1, 0⟩
    enuCol2 := ⟨0, 0, 1⟩
    enuR := 1
    cameraUp := ⟨0, 1, 0⟩
    pixelSize := 1
    axisLength := 1
    initialModelMatrix := 1 }

/-! ## Theorems -/

/-- C2: the code_bug evaluation.  Of the four non-pointer-up exits from a
drag session, rebinding to a different object and `detach` do force-exit
the Dragging state and re-enable the camera controls, but changing the
`mode` property and calling `destroy` leave `isDragging = true` and the
camera's rotate/translate controls disabled: the claimed invariant fails on
those two paths. -/
theorem C2_cancellation_paths :
    ((setMode TransformMode.rotate draggingState).isDragging = true ∧
      (setMode TransformMode.rotate draggingState).enableRotate = false ∧
      (setMode TransformMode.rotate draggingState).enableTranslate = false) ∧
    ((destroy draggingState).isDragging = true ∧
      (destroy draggingState).enableRotate = false ∧
      (destroy draggingState).enableTranslate = false) ∧
    ((bindObject (some 2) draggingState).isDragging = false ∧
      (bindObject (some 2) draggingState).enableRotate = true ∧
      (bindObject (some 2) draggingState).enableTranslate = true) ∧
    ((detach draggingState).isDragging = false ∧
      (detach draggingState).enableRotate = true ∧
      (detach draggingState).enableTranslate = true) := by
  decide

/-- C10: binding the already-bound object is a complete no-op — the state,
including every effect counter (gizmo rebuilds, outline updates, onUpdate
firings), is returned unchanged; binding a different object resets the drag
state and performs each of those effects exactly once. -/
theorem C10_bind_same_object (s : EngineState) (obj : ℕ) :
    (s.object = some obj → bindObject (some obj) s = s) ∧
    (s.object ≠ some obj →
      (bindObject (some obj) s).rebuildCount = s.rebuildCount + 1 ∧
      (bindObject (some obj) s).outlineUpdateCount = s.outlineUpdateCount + 1 ∧
      (bindObject (some obj) s).onUpdateCount = s.onUpdateCount + 1 ∧
      (bindObject (some obj) s).isDragging = false ∧
      (bindObject (some obj) s).object = some obj) := by
  constructor
  · intro h
    simp [bindObject, h]
  · intro h
    simp [bindObject, h, updateOutlineSelection, createGizmo, parseCenter, resetState]

/-- Witness for C10 at a concrete state: object 1 is bound, and rebinding
object 1 returns the state unchanged. -/
theorem C10_witness :
    draggingState.object = some 1 ∧
      bindObject (some 1) draggingState = draggingState :=
  ⟨rfl, (C10_bind_same_object draggingState 1).1 rfl⟩

/-- C8: from a non-dragging state, pointer-down starts a drag exactly when
the pick (ray cast or host fallback) resolves a handle whose axis is not
CENTER or while the mode is scale; when a CENTER handle is resolved outside
scale mode, and when nothing is resolved, the state is returned completely
unchanged. -/
theorem startDrag_sets_isDragging (id : GizmoId) (s : EngineState)
    (hguard : ¬(id.axis = Axis.CENTER ∧ s.mode ≠ TransformMode.scale)) :
    (startDrag id s).isDragging = true := by
  unfold startDrag
  rw [if_neg hguard]
  dsimp only
  split <;> simp [updateOutlineSelection]

theorem C8_drag_start_guard (s : EngineState) (rayPick scenePick : Option GizmoId)
    (h : s.isDragging = false) :
    ((handleDown rayPick scenePick s).isDragging = true ↔
      ∃ id, resolvePick rayPick scenePick = some id ∧
        (id.axis ≠ Axis.CENTER ∨ s.mode = TransformMode.scale)) ∧
    (∀ id, resolvePick rayPick scenePick = some id → id.axis = Axis.CENTER →
      s.mode ≠ TransformMode.scale → handleDown rayPick scenePick s = s) ∧
    (resolvePick rayPick scenePick = none → handleDown rayPick scenePick s = s) := by
  cases hres : resolvePick rayPick scenePick with
  | none =>
    refine ⟨?_, ?_, ?_⟩
    · simp [handleDown, hres, h]
    · intro id hid
      simp at hid
    · intro _
      simp [handleDown, hres]
  | some id =>
    have hd : handleDown rayPick scenePick s = startDrag id s := by
      rw [handleDown, hres]
    by_cases hguard : id.axis = Axis.CENTER ∧ s.mode ≠ TransformMode.scale
    · refine ⟨?_, ?_, ?_⟩
      · rw [hd]
        unfold startDrag
        rw [if_pos hguard, h]
        constructor
        · intro hfalse
          simp at hfalse
        · rintro ⟨id2, hid2, hcond⟩
          cases hid2
          rcases hcond with hax | hmode
          · exact absurd hguard.1 hax
          · exact absurd hmode hguard.2
      · intro id2 hid2 _ _
        cases hid2
        rw [hd]
        unfold startDrag
        rw [if_pos hguard]
      · intro hnone
        simp at hnone
    · refine ⟨?_, ?_, ?_⟩
      · rw [hd]
        constructor
        · intro _
          refine ⟨id, rfl, ?_⟩
          rcases not_and_or.1 hguard with hax | hmode
          · exact Or.inl hax
          · exact Or.inr (not_not.1 hmode)
        · intro _
          exact startDrag_sets_isDragging id s hguard
      · intro id2 hid2 hax hmode
        cases hid2
        exact absurd ⟨hax, hmode⟩ hguard
      · intro hnone
        simp at hnone

/-- Witness for C8 at a concrete non-dragging state with an empty pick. -/
theorem C8_witness :
    (detach draggingState).isDragging = false ∧
      handleDown none none (detach draggingState) = detach draggingState :=
  ⟨by decide, (C8_drag_start_guard (detach draggingState) none none (by decide)).2.2 rfl⟩

/-- C9: a drag-move tick with no stored drag plane, no center, no pick ray,
or no ray/plane intersection is skipped entirely — the object's model
matrix is returned unchanged and the onUpdate callback is not fired. -/
theorem C9_skip_tick (dragPlane : Option Unit) (center : Option V3) (ray : Option Unit)
    (newPoint : Option V3) (mode : TransformMode) (env : DragEnv) (objM : Mat4)
    (h : dragPlane = none ∨ center = none ∨ ray = none ∨ newPoint = none) :
    handleDrag dragPlane center ray newPoint mode env objM = (objM, false) := by
  cases dragPlane with
  | none => rfl
  | some u =>
    cases center with
    | none => rfl
    | some c =>
      cases ray with
      | none => rfl
      | some r =>
        cases newPoint with
        | none => rfl
        | some p => simp at h

/-- Witness for C9: a concrete skipped tick (missing drag plane). -/
theorem C9_witness :
    handleDrag none (some ⟨0, 0, 0⟩) (some ()) (some ⟨0, 0, 0⟩)
      TransformMode.translate centerDragEnv (1 : Mat4) = ((1 : Mat4), false) :=
  C9_skip_tick none (some ⟨0, 0, 0⟩) (some ()) (some ⟨0, 0, 0⟩)
    TransformMode.translate centerDragEnv (1 : Mat4) (Or.inl rfl)

theorem roundTo_mono (f : ℕ) {x y : ℚ} (h : x ≤ y) : roundTo f x ≤ roundTo f y := by
  unfold roundTo
  have hp : (0 : ℚ) < 10 ^ f := by positivity
  have hf : ⌊x * 10 ^ f + 1 / 2⌋ ≤ ⌊y * 10 ^ f + 1 / 2⌋ := by
    apply Int.floor_le_floor
    have := mul_le_mul_of_nonneg_right h hp.le
    linarith
  exact (div_le_div_iff_of_pos_right hp).2 (by exact_mod_cast hf)

theorem roundTo_nonneg (f : ℕ) {x : ℚ} (h : 0 ≤ x) : 0 ≤ roundTo f x := by
  unfold roundTo
  have hp : (0 : ℚ) < 10 ^ f := by positivity
  have hf : (0 : ℤ) ≤ ⌊x * 10 ^ f + 1 / 2⌋ := by
    rw [Int.le_floor]
    push_cast
    nlinarith
  exact div_nonneg (by exact_mod_cast hf) hp.le

theorem jsMod360_bounds (a : ℚ) :
    -360 < jsMod360 a ∧
    (0 ≤ a → 0 ≤ jsMod360 a ∧ jsMod360 a < 360) ∧
    (a < 0 → jsMod360 a ≤ 0) := by
  unfold jsMod360
  by_cases h : 0 ≤ a
  · rw [if_pos h]
    have h1 : (⌊a / 360⌋ : ℚ) ≤ a / 360 := Int.floor_le _
    have h2 : a / 360 < ⌊a / 360⌋ + 1 := Int.lt_floor_add_one _
    have h1m : (⌊a / 360⌋ : ℚ) * 360 ≤ a := by
      have := mul_le_mul_of_nonneg_right h1 (by norm_num : (0:ℚ) ≤ 360)
      calc (⌊a / 360⌋ : ℚ) * 360 ≤ a / 360 * 360 := this
        _ = a := by field_simp
    have h2m : a < ((⌊a / 360⌋ : ℚ) + 1) * 360 := by
      have := mul_lt_mul_of_pos_right h2 (by norm_num : (0:ℚ) < 360)
      calc a = a / 360 * 360 := by field_simp
        _ < ((⌊a / 360⌋ : ℚ) + 1) * 360 := this
    refine ⟨by linarith, fun _ => ⟨by linarith, by linarith⟩, fun hneg => absurd hneg (not_lt.2 h)⟩
  · rw [if_neg h]
    push_neg at h
    have h1 : a / 360 ≤ (⌈a / 360⌉ : ℚ) := Int.le_ceil _
    have h2 : (⌈a / 360⌉ : ℚ) < a / 360 + 1 := Int.ceil_lt_add_one _
    have h1m : a ≤ (⌈a / 360⌉ : ℚ) * 360 := by
      have := mul_le_mul_of_nonneg_right h1 (by norm_num : (0:ℚ) ≤ 360)
      calc a = a / 360 * 360 := by field_simp
        _ ≤ (⌈a / 360⌉ : ℚ) * 360 := this
    have h2m : (⌈a / 360⌉ : ℚ) * 360 < a + 360 := by
      have := mul_lt_mul_of_pos_right h2 (by norm_num : (0:ℚ) < 360)
      calc (⌈a / 360⌉ : ℚ) * 360 < (a / 360 + 1) * 360 := this
        _ = a + 360 := by field_simp
    exact ⟨by linarith, fun hpos => absurd h (not_lt.2 hpos), fun _ => by linarith⟩

theorem toDegreesClean_bounds (degree : ℚ) :
    0 ≤ toDegreesClean degree ∧ toDegreesClean degree < 360 := by
  unfold toDegreesClean
  dsimp only
  obtain ⟨hlow, hpos, hneg⟩ := jsMod360_bounds degree
  set d1 := jsMod360 degree with hd1
  have hd2 : 0 ≤ (if d1 < 0 then d1 + 360 else d1) ∧
      (if d1 < 0 then d1 + 360 else d1) < 360 := by
    by_cases h1 : d1 < 0
    · rw [if_pos h1]
      constructor <;> linarith
    · rw [if_neg h1]
      push_neg at h1
      by_cases ha : 0 ≤ degree
      · exact ⟨h1, (hpos ha).2⟩
      · push_neg at ha
        have := hneg ha
        constructor
        · exact h1
        · linarith
  set d2 := if d1 < 0 then d1 + 360 else d1 with hd2def
  have hd3 : 0 ≤ (if |d2 - 360| < 1 / 100 then 0 else d2) ∧
      (if |d2 - 360| < 1 / 100 then 0 else d2) ≤ 35999 / 100 := by
    by_cases h2 : |d2 - 360| < 1 / 100
    · rw [if_pos h2]
      norm_num
    · rw [if_neg h2]
      push_neg at h2
      have habs : |d2 - 360| = 360 - d2 := by
        rw [abs_of_nonpos (by linarith [hd2.2])]
        ring
      rw [habs] at h2
      exact ⟨hd2.1, by linarith⟩
  set d3 := if |d2 - 360| < 1 / 100 then 0 else d2 with hd3def
  have hd4 : 0 ≤ (if |d3| < 1 / 100 then 0 else d3) ∧
      (if |d3| < 1 / 100 then 0 else d3) ≤ 35999 / 100 := by
    by_cases h3 : |d3| < 1 / 100
    · rw [if_pos h3]
      norm_num
    · rw [if_neg h3]
      exact hd3
  set d4 := if |d3| < 1 / 100 then 0 else d3 with hd4def
  constructor
  · exact roundTo_nonneg 2 hd4.1
  · have hle : roundTo 2 d4 ≤ roundTo 2 (35999 / 100) := roundTo_mono 2 hd4.2
    have hval : roundTo 2 (35999 / 100 : ℚ) = 35999 / 100 := by
      norm_num [roundTo]
    rw [hval] at hle
    linarith

/-- C3: the amended formatting contract of `getTransformState`: scale
components within `1e-5` of `1.0` become exactly `1.0`, otherwise they are
rounded to 3 decimal digits; position components are rounded to 2 decimal
digits (not 3, as claimed); angle components are rounded to 2 decimal
digits and always lie in `[0, 360)`. -/
theorem C3_transform_state_format (scaleVal posVal degVal : ℚ) :
    (|scaleVal - 1| < 1 / 100000 → cleanScale scaleVal = 1) ∧
    (¬ |scaleVal - 1| < 1 / 100000 →
      cleanScale scaleVal = roundTo 3 scaleVal ∧
      ∃ k : ℤ, cleanScale scaleVal = k / 1000) ∧
    (roundPosition posVal = roundTo 2 posVal ∧
      ∃ k : ℤ, roundPosition posVal = k / 100) ∧
    (0 ≤ toDegreesClean degVal ∧ toDegreesClean degVal < 360 ∧
      ∃ k : ℤ, toDegreesClean degVal = k / 100) := by
  refine ⟨?_, ?_, ?_, ?_⟩
  · intro h
    rw [cleanScale, if_pos h]
  · intro h
    rw [cleanScale, if_neg h]
    refine ⟨rfl, ⟨⌊scaleVal * 10 ^ 3 + 1 / 2⌋, ?_⟩⟩
    rw [roundTo]
    norm_num
  · refine ⟨rfl, ⟨⌊posVal * 10 ^ 2 + 1 / 2⌋, ?_⟩⟩
    rw [roundPosition, roundTo]
    norm_num
  · obtain ⟨h0, h360⟩ := toDegreesClean_bounds degVal
    refine ⟨h0, h360, ?_⟩
    unfold toDegreesClean
    dsimp only
    exact ⟨⌊(if |(if |(if (jsMod360 degVal) < 0 then (jsMod360 degVal) + 360
        else (jsMod360 degVal)) - 360| < 1 / 100 then 0
        else if (jsMod360 degVal) < 0 then (jsMod360 degVal) + 360
        else (jsMod360 degVal))| < 1 / 100 then 0
        else if |(if (jsMod360 degVal) < 0 then (jsMod360 degVal) + 360
        else (jsMod360 degVal)) - 360| < 1 / 100 then 0
        else if (jsMod360 degVal) < 0 then (jsMod360 degVal) + 360
        else (jsMod360 degVal)) * 10 ^ 2 + 1 / 2⌋, by rw [roundTo]; norm_num⟩

/-- Witness for C3 at concrete inputs: a scale within the snap window, a
position, and a degree value. -/
theorem C3_witness :
    (|(1 : ℚ) - 1| < 1 / 100000) ∧ cleanScale 1 = 1 ∧
      roundPosition 0 = roundTo 2 0 ∧ 0 ≤ toDegreesClean 0 :=
  ⟨by norm_num, (C3_transform_state_format 1 0 0).1 (by norm_num),
    ((C3_transform_state_format 1 0 0).2.2.1).1,
    ((C3_transform_state_format 1 0 0).2.2.2).1⟩

/-- Counterexample for C3 as stated: the source rounds position with
`toFixed(2)`; at position component `0.1234` the output is `0.12`, not the
claimed 3-digit rounding `0.123`. -/
theorem C3_counterexample :
    roundPosition (1234 / 10000) = 12 / 100 ∧
    roundPositionSpec (1234 / 10000) = 123 / 1000 ∧
    roundPosition (1234 / 10000) ≠ roundPositionSpec (1234 / 10000) := by
  refine ⟨?_, ?_, ?_⟩ <;> norm_num [roundPosition, roundPositionSpec, roundTo]

theorem pickStep_fst_le (acc : ℚ × Option GizmoId) (e : PickEntry) :
    (pickStep acc e).1 ≤ acc.1 := by
  unfold pickStep
  cases e.hit with
  | none => exact le_refl _
  | some t =>
    dsimp only
    split
    · next hlt => exact le_of_lt hlt
    · exact le_refl _

theorem pickStep_fst_le_adj (acc : ℚ × Option GizmoId) (e : PickEntry) (t : ℚ)
    (h : e.hit = some t) : (pickStep acc e).1 ≤ adjustedDist e t := by
  unfold pickStep
  rw [h]
  dsimp only
  split
  · exact le_refl _
  · next hn => exact le_of_not_lt hn

theorem pickStep_cases (acc : ℚ × Option GizmoId) (e : PickEntry) :
    pickStep acc e = acc ∨
      ∃ t, e.hit = some t ∧ pickStep acc e = (adjustedDist e t, some e.id) := by
  unfold pickStep
  cases he : e.hit with
  | none => exact Or.inl rfl
  | some t =>
    dsimp only
    split
    · exact Or.inr ⟨t, rfl, rfl⟩
    · exact Or.inl rfl

theorem pickFold_spec (l : List PickEntry) :
    ∀ acc : ℚ × Option GizmoId,
      ((l.foldl pickStep acc).1 ≤ acc.1) ∧
      (∀ e ∈ l, ∀ t, e.hit = some t → (l.foldl pickStep acc).1 ≤ adjustedDist e t) ∧
      (l.foldl pickStep acc = acc ∨
        ∃ e ∈ l, ∃ t, e.hit = some t ∧
          (l.foldl pickStep acc).2 = some e.id ∧
          (l.foldl pickStep acc).1 = adjustedDist e t) := by
  induction l with
  | nil =>
    intro acc
    exact ⟨le_refl _, by simp, Or.inl rfl⟩
  | cons a as ih =>
    intro acc
    obtain ⟨ih1, ih2, ih3⟩ := ih (pickStep acc a)
    rw [List.foldl_cons]
    refine ⟨le_trans ih1 (pickStep_fst_le acc a), ?_, ?_⟩
    · intro e he t ht
      rcases List.mem_cons.1 he with rfl | he2
      · exact le_trans ih1 (pickStep_fst_le_adj acc e t ht)
      · exact ih2 e he2 t ht
    · rcases ih3 with heq | ⟨e, he, t, ht, h2, h1⟩
      · rcases pickStep_cases acc a with hs | ⟨t, ht, hs⟩
        · exact Or.inl (heq.trans hs)
        · refine Or.inr ⟨a, List.mem_cons_self a as, t, ht, ?_, ?_⟩
          · rw [heq, hs]
          · rw [heq, hs]
      · exact Or.inr ⟨e, List.mem_cons_of_mem a he, t, ht, h2, h1⟩

/-- C1: the amended pick selection of `rayCastGizmo`.  With no hit the
result is `null`.  With at least one hit (whose adjusted distance is below
`Number.MAX_VALUE`) the returned handle is a hit collider minimizing the
ADJUSTED entry distance, where the CENTER handle's distance is decreased by
the constant 1000 — a bonus, not a penalty: whenever the CENTER collider is
hit and every non-CENTER hit lies less than 1000 closer, the CENTER handle
is returned, in preference to simultaneously hit axis/plane handles. -/
theorem C1_pick_selection (l : List PickEntry) :
    ((∀ e ∈ l, e.hit = none) → rayCastGizmo l = none) ∧
    (∀ e0 ∈ l, ∀ t0, e0.hit = some t0 → adjustedDist e0 t0 < numberMaxValue →
      ∃ e ∈ l, ∃ t, e.hit = some t ∧ rayCastGizmo l = some e.id ∧
        ∀ e1 ∈ l, ∀ t1, e1.hit = some t1 → adjustedDist e t ≤ adjustedDist e1 t1) ∧
    (∀ e0 ∈ l, e0.id.axis = Axis.CENTER → ∀ t0, e0.hit = some t0 →
      t0 - 1000 < numberMaxValue →
      (∀ e1 ∈ l, e1.id.axis ≠ Axis.CENTER → ∀ t1, e1.hit = some t1 →
        t0 - 1000 < adjustedDist e1 t1) →
      ∃ e ∈ l, rayCastGizmo l = some e.id ∧ e.id.axis = Axis.CENTER) := by
  obtain ⟨hmin, hle, hcase⟩ := pickFold_spec l (numberMaxValue, none)
  have hresult : rayCastGizmo l = (l.foldl pickStep (numberMaxValue, none)).2 := rfl
  have hmain : ∀ e0 ∈ l, ∀ t0, e0.hit = some t0 → adjustedDist e0 t0 < numberMaxValue →
      ∃ e ∈ l, ∃ t, e.hit = some t ∧ rayCastGizmo l = some e.id ∧
        ∀ e1 ∈ l, ∀ t1, e1.hit = some t1 → adjustedDist e t ≤ adjustedDist e1 t1 := by
    intro e0 he0 t0 ht0 hlt
    rcases hcase with heq | ⟨e, he, t, ht, h2, h1⟩
    · exfalso
      have h3 := hle e0 he0 t0 ht0
      rw [heq] at h3
      exact absurd (lt_of_le_of_lt h3 hlt) (lt_irrefl _)
    · refine ⟨e, he, t, ht, ?_, ?_⟩
      · rw [hresult, h2]
      · intro e1 he1 t1 ht1
        rw [← h1]
        exact hle e1 he1 t1 ht1
  refine ⟨?_, hmain, ?_⟩
  · intro hall
    rcases hcase with heq | ⟨e, he, t, ht, _, _⟩
    · rw [hresult, heq]
    · rw [hall e he] at ht
      cases ht
  · intro e0 he0 hax t0 ht0 hlt hothers
    have hadj : adjustedDist e0 t0 = t0 - 1000 := by
      rw [adjustedDist, if_pos hax]
    obtain ⟨e, he, t, ht, hres, hminimal⟩ := hmain e0 he0 t0 ht0 (by rw [hadj]; exact hlt)
    by_cases hec : e.id.axis = Axis.CENTER
    · exact ⟨e, he, hres, hec⟩
    · exfalso
      have h4 := hothers e he hec t ht
      have h5 := hminimal e0 he0 t0 ht0
      rw [hadj] at h5
      exact absurd (lt_of_le_of_lt h5 h4) (lt_irrefl _)

theorem adjustedDist_transX (t : ℚ) : adjustedDist ⟨transXId, some 5⟩ t = t := by
  rw [adjustedDist, if_neg]
  intro hcontra
  exact absurd hcontra (by decide)

theorem adjustedDist_center (t : ℚ) : adjustedDist ⟨centerId, some 6⟩ t = t - 1000 := by
  rw [adjustedDist, if_pos]
  decide

/-- Witness for C1 at a concrete hit list with a single axis hit. -/
theorem C1_witness :
    (⟨transXId, some 5⟩ : PickEntry).hit = some 5 ∧
    adjustedDist ⟨transXId, some 5⟩ 5 < numberMaxValue ∧
    ∃ e ∈ [(⟨transXId, some 5⟩ : PickEntry)], ∃ t, e.hit = some t ∧
      rayCastGizmo [⟨transXId, some 5⟩] = some e.id ∧
      ∀ e1 ∈ [(⟨transXId, some 5⟩ : PickEntry)], ∀ t1, e1.hit = some t1 →
        adjustedDist e t ≤ adjustedDist e1 t1 :=
  ⟨rfl, by rw [adjustedDist_transX]; norm_num [numberMaxValue],
    (C1_pick_selection [⟨transXId, some 5⟩]).2.1 ⟨transXId, some 5⟩ (by simp) 5 rfl
      (by rw [adjustedDist_transX]; norm_num [numberMaxValue])⟩

/-- Counterexample for C1 as stated: the X translate collider is hit at
entry distance 5 and the CENTER collider at entry distance 6, yet the
returned handle is CENTER (its distance is REDUCED by 1000, so it wins the
comparison), not the axis handle as the claim requires. -/
theorem C1_counterexample :
    rayCastGizmo [⟨transXId, some 5⟩, ⟨centerId, some 6⟩] = some centerId ∧
    transXId.axis ≠ Axis.CENTER ∧
    centerId.axis = Axis.CENTER ∧
    rayCastGizmo [⟨transXId, some 5⟩, ⟨centerId, some 6⟩] ≠ some transXId := by
  have s1 : pickStep (numberMaxValue, none) ⟨transXId, some 5⟩ = ((5 : ℚ), some transXId) := by
    show (if adjustedDist ⟨transXId, some 5⟩ 5 < (numberMaxValue, (none : Option GizmoId)).1
        then (adjustedDist ⟨transXId, some 5⟩ 5, some (⟨transXId, some 5⟩ : PickEntry).id)
        else (numberMaxValue, none)) = ((5 : ℚ), some transXId)
    rw [adjustedDist_transX]
    rw [if_pos (by norm_num [numberMaxValue])]
  have s2 : pickStep ((5 : ℚ), some transXId) ⟨centerId, some 6⟩ =
      ((6 : ℚ) - 1000, some centerId) := by
    show (if adjustedDist ⟨centerId, some 6⟩ 6 < (((5 : ℚ), some transXId)).1
        then (adjustedDist ⟨centerId, some 6⟩ 6, some (⟨centerId, some 6⟩ : PickEntry).id)
        else ((5 : ℚ), some transXId)) = ((6 : ℚ) - 1000, some centerId)
    rw [adjustedDist_center]
    rw [if_pos (by norm_num)]
  have h1 : rayCastGizmo [⟨transXId, some 5⟩, ⟨centerId, some 6⟩] = some centerId := by
    rw [rayCastGizmo]
    rw [List.foldl_cons, List.foldl_cons, List.foldl_nil, s1, s2]
  refine ⟨h1, by decide, by decide, ?_⟩
  rw [h1]
  intro hcontra
  have : centerId = transXId := Option.some.inj hcontra
  exact absurd this (by decide)

/-- C4: the per-frame quadrant snap.  For each rotation handle the applied
orientation is `floor(angle / (π/2)) * (π/2)` of the atan2 angle of the
local camera direction in that handle's plane; it is `0` for every angle in
`[0, π/2)`, it is `π/2` at exactly `π/2`, and it is idempotent. -/
theorem C4_quadrant_snap (localCameraDir : V3) (a : ℝ)
    (h0 : 0 ≤ a) (h1 : a < Real.pi / 2) :
    (quadrantSnapAngle Axis.Z localCameraDir =
      snapQuadrant (atan2 localCameraDir.y localCameraDir.x)) ∧
    (quadrantSnapAngle Axis.X localCameraDir =
      snapQuadrant (atan2 localCameraDir.z localCameraDir.y)) ∧
    (quadrantSnapAngle Axis.Y localCameraDir =
      snapQuadrant (atan2 localCameraDir.x localCameraDir.z)) ∧
    (∀ b : ℝ, snapQuadrant b = (⌊b / (Real.pi / 2)⌋ : ℝ) * (Real.pi / 2)) ∧
    snapQuadrant a = 0 ∧
    snapQuadrant (Real.pi / 2) = Real.pi / 2 ∧
    (∀ b : ℝ, snapQuadrant (snapQuadrant b) = snapQuadrant b) := by
  have hpi : (0 : ℝ) < Real.pi / 2 := half_pos Real.pi_pos
  refine ⟨rfl, rfl, rfl, fun b => rfl, ?_, ?_, ?_⟩
  · rw [snapQuadrant]
    have hz : ⌊a / (Real.pi / 2)⌋ = 0 := by
      rw [Int.floor_eq_zero_iff]
      exact ⟨div_nonneg h0 hpi.le, (div_lt_one hpi).2 h1⟩
    rw [hz]
    norm_num
  · rw [snapQuadrant, div_self (ne_of_gt hpi)]
    norm_num
  · intro b
    rw [snapQuadrant, snapQuadrant, mul_div_assoc, div_self (ne_of_gt hpi),
      mul_one, Int.floor_intCast]

/-- Witness for C4 at the concrete camera angle 0. -/
theorem C4_witness :
    ((0 : ℝ) ≤ 0) ∧ ((0 : ℝ) < Real.pi / 2) ∧ snapQuadrant 0 = 0 :=
  ⟨le_refl 0, half_pos Real.pi_pos,
    (C4_quadrant_snap ⟨1, 0, 0⟩ 0 (le_refl 0) (half_pos Real.pi_pos)).2.2.2.2.1⟩

/-- C5: the scale factor of a drag tick is `max(0.01, 1 + dot(delta,
cameraUp) * sensitivity * 2)` for the CENTER handle and `max(0.01, 1 +
dot(delta, axisVector) * sensitivity)` for an axis handle, with
`sensitivity = 1 / (axisLength * pixelSize)`; it never goes below `0.01`,
and any raw value below `0.01` is replaced by exactly `0.01`. -/
theorem C5_scale_floor (env : DragEnv) (center newPoint : V3) :
    (1 / 100 ≤ (updateScale env center newPoint).factor) ∧
    (env.dragAxisName = HandleName.CENTER →
      (updateScale env center newPoint).factor =
        max (1 / 100) (1 + dot3 (sub3 newPoint env.dragStartPoint) env.cameraUp *
          (1 / (env.axisLength * env.pixelSize)) * 2)) ∧
    (env.dragAxisName ≠ HandleName.CENTER →
      (updateScale env center newPoint).factor =
        max (1 / 100) (1 + dot3 (sub3 newPoint env.dragStartPoint) (selectAxisVector env) *
          (1 / (env.axisLength * env.pixelSize)))) ∧
    (∀ raw : ℝ, raw < 1 / 100 → max (1 / 100) raw = (1 / 100 : ℝ)) := by
  by_cases h : env.dragAxisName = HandleName.CENTER
  · have hfactor : (updateScale env center newPoint).factor =
        max (1 / 100) (1 + dot3 (sub3 newPoint env.dragStartPoint) env.cameraUp *
          (1 / (env.axisLength * env.pixelSize)) * 2) := by
      unfold updateScale
      rw [if_pos h]
    exact ⟨by rw [hfactor]; exact le_max_left _ _, fun _ => hfactor,
      fun hne => absurd h hne, fun raw hraw => max_eq_left hraw.le⟩
  · have hfactor : (updateScale env center newPoint).factor =
        max (1 / 100) (1 + dot3 (sub3 newPoint env.dragStartPoint) (selectAxisVector env) *
          (1 / (env.axisLength * env.pixelSize))) := by
      unfold updateScale
      rw [if_neg h]
    exact ⟨by rw [hfactor]; exact le_max_left _ _, fun hc => absurd hc h,
      fun _ => hfactor, fun raw hraw => max_eq_left hraw.le⟩

/-- Witness for C5: a concrete CENTER uniform-scale drag whose raw factor
`1 + (-1) * 1 * 2 = -1` is below the floor, so the factor is exactly 0.01. -/
theorem C5_witness :
    centerDragEnv.dragAxisName = HandleName.CENTER ∧
    ((-1 : ℝ) < 1 / 100) ∧
    max (1 / 100 : ℝ) (-1) = 1 / 100 ∧
    (updateScale centerDragEnv ⟨0, 0, 0⟩ ⟨0, -1, 0⟩).factor =
      max (1 / 100) (1 + dot3 (sub3 ⟨0, -1, 0⟩ centerDragEnv.dragStartPoint)
        centerDragEnv.cameraUp * (1 / (centerDragEnv.axisLength * centerDragEnv.pixelSize)) * 2) :=
  ⟨rfl, by norm_num,
    (C5_scale_floor centerDragEnv ⟨0, 0, 0⟩ ⟨0, -1, 0⟩).2.2.2 (-1) (by norm_num),
    (C5_scale_floor centerDragEnv ⟨0, 0, 0⟩ ⟨0, -1, 0⟩).2.1 rfl⟩

/-- C6: the rotate-tick angle is `arccos` of the start/current direction
dot product clamped to `[-1, 1]`; the sign flips exactly when the cross
product's component along the handle axis is negative; and a zero angle
applies no transform — the object's model matrix is returned unchanged. -/
theorem C6_rotate_angle (env : DragEnv) (center newPoint : V3) (objM : Mat4) :
    (Real.arccos (clampRange (dot3 env.dragVectorStart
        (normalize3 (sub3 newPoint center))) (-1) 1) ≠ 0 →
      0 ≤ dot3 (cross3 env.dragVectorStart (normalize3 (sub3 newPoint center)))
        (selectAxisVector env) →
      updateRotateAngle env.dragVectorStart (normalize3 (sub3 newPoint center))
        (selectAxisVector env) =
        some (Real.arccos (clampRange (dot3 env.dragVectorStart
          (normalize3 (sub3 newPoint center))) (-1) 1))) ∧
    (Real.arccos (clampRange (dot3 env.dragVectorStart
        (normalize3 (sub3 newPoint center))) (-1) 1) ≠ 0 →
      dot3 (cross3 env.dragVectorStart (normalize3 (sub3 newPoint center)))
        (selectAxisVector env) < 0 →
      updateRotateAngle env.dragVectorStart (normalize3 (sub3 newPoint center))
        (selectAxisVector env) =
        some (-(Real.arccos (clampRange (dot3 env.dragVectorStart
          (normalize3 (sub3 newPoint center))) (-1) 1)))) ∧
    (Real.arccos (clampRange (dot3 env.dragVectorStart
        (normalize3 (sub3 newPoint center))) (-1) 1) = 0 →
      updateRotateTick env center newPoint objM = objM) := by
  refine ⟨?_, ?_, ?_⟩
  · intro hne hsign
    unfold updateRotateAngle
    rw [if_neg hne]
    dsimp only
    rw [if_neg (not_lt.2 hsign)]
  · intro hne hsign
    unfold updateRotateAngle
    rw [if_neg hne]
    dsimp only
    rw [if_pos hsign]
  · intro hzero
    have hnone : updateRotateAngle env.dragVectorStart
        (normalize3 (sub3 newPoint center)) (selectAxisVector env) = none := by
      unfold updateRotateAngle
      rw [if_pos hzero]
    unfold updateRotateTick
    dsimp only
    rw [hnone]

/-- Witness for C6: start and current direction coincide, the clamped dot
product is 1, the arccos is 0 and the matrix is untouched. -/
theorem C6_witness :
    Real.arccos (clampRange (dot3 centerDragEnv.dragVectorStart
      (normalize3 (sub3 ⟨1, 0, 0⟩ ⟨0, 0, 0⟩))) (-1) 1) = 0 ∧
    updateRotateTick centerDragEnv ⟨0, 0, 0⟩ ⟨1, 0, 0⟩ (1 : Mat4) = (1 : Mat4) := by
  have hnorm : normalize3 (sub3 ⟨1, 0, 0⟩ ⟨0, 0, 0⟩) = ⟨1, 0, 0⟩ := by
    rw [sub3, normalize3, mag3]
    norm_num [Real.sqrt_one]
  have hdot : dot3 centerDragEnv.dragVectorStart
      (normalize3 (sub3 ⟨1, 0, 0⟩ ⟨0, 0, 0⟩)) = 1 := by
    rw [hnorm]
    show dot3 ⟨1, 0, 0⟩ ⟨1, 0, 0⟩ = 1
    rw [dot3]
    norm_num
  have hclamp : clampRange (1 : ℝ) (-1) 1 = 1 := by
    rw [clampRange, if_neg (by norm_num), if_neg (by norm_num)]
  have hzero : Real.arccos (clampRange (dot3 centerDragEnv.dragVectorStart
      (normalize3 (sub3 ⟨1, 0, 0⟩ ⟨0, 0, 0⟩))) (-1) 1) = 0 := by
    rw [hdot, hclamp, Real.arccos_one]
  exact ⟨hzero, (C6_rotate_angle centerDragEnv ⟨0, 0, 0⟩ ⟨1, 0, 0⟩ 1).2.2 hzero⟩

/-- C7: a ray hits a SECTOR collider iff its bounding-box interval is
non-empty and, at the entry point, the radial distance is at most the
radius plus the tolerance `tube * 4` and both in-plane coordinates are at
least `-0.05`; concretely, the entry point `(0.7, 0.7, 0)` on a Z-axis
sector of radius 1 hits, and the 135-degree entry point `(-0.7, 0.7, 0)`
does not. -/
theorem C7_sector_hit (radius tube : ℝ) (ringNormalAxis : ℕ) (entry : Option V3) :
    (sectorRayHit radius tube ringNormalAxis entry ↔
      ∃ p, entry = some p ∧ mag3 p ≤ radius + tube * 4 ∧
        -(5 / 100) ≤ (inPlane ringNormalAxis p).1 ∧
        -(5 / 100) ≤ (inPlane ringNormalAxis p).2) ∧
    sectorRayHit 1 (5 / 100) 2 (some ⟨7 / 10, 7 / 10, 0⟩) ∧
    ¬ sectorRayHit 1 (5 / 100) 2 (some ⟨-(7 / 10), 7 / 10, 0⟩) := by
  have hmag : mag3 ⟨7 / 10, 7 / 10, 0⟩ ≤ 6 / 5 := by
    rw [mag3]
    have h1 : (7 / 10 : ℝ) * (7 / 10) + (7 / 10) * (7 / 10) + 0 * 0 = 98 / 100 := by
      norm_num
    rw [h1]
    have h2 : (98 / 100 : ℝ) ≤ (6 / 5) ^ 2 := by norm_num
    calc Real.sqrt (98 / 100) ≤ Real.sqrt ((6 / 5 : ℝ) ^ 2) := Real.sqrt_le_sqrt h2
      _ = 6 / 5 := Real.sqrt_sq (by norm_num)
  refine ⟨?_, ?_, ?_⟩
  · cases entry with
    | none => simp [sectorRayHit]
    | some p =>
      simp only [sectorRayHit, sectorHitAt]
      constructor
      · rintro ⟨hd, huv⟩
        push_neg at hd huv
        exact ⟨p, rfl, hd, huv.1, huv.2⟩
      · rintro ⟨p2, hp2, h1, h2, h3⟩
        cases hp2
        exact ⟨not_lt.2 h1, not_or.2 ⟨not_lt.2 h2, not_lt.2 h3⟩⟩
  · simp only [sectorRayHit, sectorHitAt]
    constructor
    · have hb : (1 : ℝ) + 5 / 100 * 4 = 6 / 5 := by norm_num
      rw [hb]
      exact not_lt.2 hmag
    · rw [not_or]
      constructor
      · show ¬ ((inPlane 2 ⟨7 / 10, 7 / 10, 0⟩).1 < -(5 / 100))
        norm_num [inPlane]
      · show ¬ ((inPlane 2 ⟨7 / 10, 7 / 10, 0⟩).2 < -(5 / 100))
        norm_num [inPlane]
  · simp only [sectorRayHit, sectorHitAt]
    rintro ⟨hd, huv⟩
    apply huv
    left
    show (inPlane 2 ⟨-(7 / 10), 7 / 10, 0⟩).1 < -(5 / 100)
    norm_num [inPlane]

end GizmoSpec
